import Mathlib

/-!
A shallow embedding of the core of `gbp_repocache/__init__.py` (the git
repository cache of obs-service-git-buildpackage), together with proofs of
the behavioural properties claimed by the specification.

Strings from the Python side are embedded as `List Char`; external effects
(the git command-line tool, the filesystem, the network) are embedded as
explicit environment records whose boolean / functional fields record the
outcome the external world would produce, and every operation is a pure
Lean function from the environment and a state to a result state plus an
explicit error value (Python exceptions become `Option` / `Except` values).
-/

namespace GbpRepocache

/-! ## URL splitting and slot-path resolution

Embeds `CachedRepo._split_url` (gbp_repocache/__init__.py lines 267-287)
and the repo-dir computation in `CachedRepo.__init__` (lines 230-236).
-/

/-- Python `str.rstrip('/')`: drop all trailing slash characters. -/
def rstripSlash (s : List Char) : List Char :=
  List.rdropWhile (fun c => c = '/') s

/-- Python `str.rsplit(sep, 1)` restricted to a single-character separator:
`some (before, after)` splits at the LAST occurrence of `sep`; `none` when
`sep` does not occur (Python returns the one-element list `[s]` there). -/
def rsplit1 (sep : Char) : List Char → Option (List Char × List Char)
  | [] => none
  | c :: cs =>
    match rsplit1 sep cs with
    | some (a, b) => some (c :: a, b)
    | none => if c = sep then some ([], cs) else none

/-- Embedding of `CachedRepo._split_url` (lines 267-287): strip trailing
slashes, split at the last `'/'`; if there is no `'/'`, split at the last
`':'`; if there is no separator at all, the base is empty and the name is
the whole sanitized URL. -/
def split_url (url : List Char) : List Char × List Char :=
  let sanitized := rstripSlash url
  match rsplit1 '/' sanitized with
  | some (base, repo) => (base, repo)
  | none =>
    match rsplit1 ':' sanitized with
    | some (base, repo) => (base, repo)
    | none => ([], sanitized)

/-- Python `posixpath.join` for two components: an absolute second component
replaces the first; otherwise a `'/'` is inserted unless the first component
is empty or already ends in `'/'`. -/
def ospJoin (a b : List Char) : List Char :=
  if b.head? = some '/' then b
  else if a = [] ∨ a.getLast? = some '/' then a ++ b
  else a ++ '/' :: b

/-- Embedding of the slot-path computation in `CachedRepo.__init__`
(lines 230-233): `os.path.join(basedir, sha1(urlbase).hexdigest(), reponame)`.
The SHA-1 hex digest comes from the external `hashlib` library and is
embedded as the function parameter `sha1hex`. -/
def repodir (sha1hex : List Char → List Char) (basedir url : List Char) :
    List Char :=
  ospJoin (ospJoin basedir (sha1hex (split_url url).1)) (split_url url).2

/-- Embedding of the lock-file path used by `CachedRepo._acquire_lock`
(lines 250-254): `repodir + '.lock'`. -/
def lockPath (sha1hex : List Char → List Char) (basedir url : List Char) :
    List Char :=
  repodir sha1hex basedir url ++ ".lock".data

/-! ## Error values

One constructor per raise site.  `GitErr` embeds gbp's `GitRepositoryError`
(the class raised by `MirrorGitRepository` and by the underlying git tool
wrappers); `CacheErr` embeds `CachedRepoError` (lines 215-217), again one
constructor per raise site of `CachedRepo`.
-/

/-- Embedding of `GitRepositoryError`: which operation raised it. -/
inductive GitErr
  /-- Propagated from `_git_command` (non-zero exit of the named git command). -/
  | cmdFailed (cmd : List Char)
  /-- Raised by `set_ref` when `git symbolic-ref` fails (lines 64-66). -/
  | symbolicRefFailed (ref : List Char)
  /-- Raised by `set_ref` on an `IOError` of the direct file write (lines 74-75),
  message `Failed write ref ...`. -/
  | writeRefFailed (ref : List Char)
  deriving DecidableEq, Repr

/-- Embedding of `CachedRepoError`: which raise site of `CachedRepo` fired. -/
inductive CacheErr
  /-- Line 247: `Failed to create cache subdir`. -/
  | createSubdirFailed
  /-- Line 256: `Unable to open repo lock file`. -/
  | lockOpenFailed
  /-- Line 306: `Failed to remove repo cache dir` (the spec's `DirError` class). -/
  | removeFailed
  /-- Line 313: `Failed to fetch from remote` (the spec's `FetchError` class). -/
  | fetchFailed (e : GitErr)
  /-- Line 321: `Failed to clone` (the spec's `CloneError` class). -/
  | cloneFailed (e : GitErr)
  /-- Line 329: `Trying to operate on closed CachedRepo instance`
  (the spec's `ClosedHandleError` class). -/
  | closedInstance
  /-- Line 357: `Cannot update working copy of a bare repo`
  (the spec's `OperationError` class). -/
  | updateBare
  /-- Line 373: `Unknown ref '<commitish>'` (the spec's `UnknownRevisionError`
  class), wrapping the underlying `GitRepositoryError`. -/
  | unknownRef (commitish : List Char) (e : GitErr)
  deriving DecidableEq, Repr

/-! ## `MirrorGitRepository.set_ref` at file granularity

Embeds lines 56-75.  The git directory is embedded as two association lists:
refs the `git symbolic-ref` tool maintains, and plain files (path relative to
`GIT_DIR` mapped to contents).  The environment records whether the external
tool call succeeds and whether opening a given path for writing succeeds.
-/

/-- Association-list update: the new binding shadows any previous one. -/
def setAssoc (l : List (List Char × List Char)) (k v : List Char) :
    List (List Char × List Char) :=
  (k, v) :: l.filter (fun p => p.1 ≠ k)

/-- Association-list lookup. -/
def lookupAssoc (l : List (List Char × List Char)) (k : List Char) :
    Option (List Char) :=
  (l.find? (fun p => p.1 = k)).map (fun p => p.2)

/-- The files of a git directory, as visible to `set_ref`. -/
structure GitDirFiles where
  /-- Symbolic refs maintained through `git symbolic-ref`. -/
  symref : List (List Char × List Char)
  /-- Plain files under `GIT_DIR`, path mapped to contents. -/
  files : List (List Char × List Char)
  deriving DecidableEq, Repr

/-- Outcomes of the external world for one `set_ref` call. -/
structure RefEnv where
  /-- Whether `git symbolic-ref -q <ref> <value>` exits 0 with empty stderr. -/
  symbolicRefOk : Bool
  /-- Whether `open(os.path.join(git_dir, ref), 'w')` succeeds for a path. -/
  writeOk : List Char → Bool

/-- Embedding of `MirrorGitRepository.set_ref` (lines 56-75): a value that
starts with `refs/` is written as a symbolic ref through the git tool; any
other value is written raw (followed by a newline) directly into the ref
file, bypassing git's validation; an `IOError` of that write becomes a
`GitRepositoryError`. -/
def set_ref (env : RefEnv) (s : GitDirFiles) (ref value : List Char) :
    Except GitErr GitDirFiles :=
  if "refs/".data.isPrefixOf value then
    if env.symbolicRefOk then
      .ok { s with symref := setAssoc s.symref ref value }
    else .error (.symbolicRefFailed ref)
  else
    if env.writeOk ref then
      .ok { s with files := setAssoc s.files ref (value ++ ['\n']) }
    else .error (.writeRefFailed ref)

/-! ## `MirrorGitRepository.force_fetch` at ref-value granularity

Embeds lines 94-146.  Here the state tracks the values `get_ref` observes
("HEAD" and "FETCH_HEAD"), the target of the `refs` symlink (`none` when
`refs` is a real directory) and the existence of `packed-refs`; `set_ref`
on this state is the value-level projection of the file-level `set_ref`
above (both its branches leave `get_ref` observing exactly the new value).
The two network fetches are external and their outcomes come from the
environment.
-/

/-- Ref-value view of a mirror repository's git directory. -/
structure FetchState where
  /-- Value `get_ref('HEAD')` observes: symbolic target or sha. -/
  head : List Char
  /-- Value `get_ref('FETCH_HEAD')` observes. -/
  fetchHead : List Char
  /-- Target of the `refs` symlink; `none` when `refs` is a real directory. -/
  refsLink : Option (List Char)
  /-- Whether a `packed-refs` file exists. -/
  packedRefs : Bool
  deriving DecidableEq, Repr

/-- Outcomes of the external git tool for one `force_fetch` call. -/
structure FetchEnv where
  /-- Whether `git fetch -q -u -p origin <refspec>` succeeds. -/
  primaryOk : Bool
  /-- `FETCH_HEAD` value the primary fetch records when it succeeds. -/
  primaryFetchHead : List Char
  /-- Whether `git fetch -q -u origin HEAD` succeeds. -/
  headOk : Bool
  /-- `FETCH_HEAD` value the HEAD-only fetch records when it succeeds. -/
  remoteHead : List Char

/-- The git commands `force_fetch` runs, in order. -/
inductive GitCmd
  /-- `git fetch -q -u -p origin <refspec>` (line 135). -/
  | fetchAll (refspec : List Char)
  /-- `git fetch -q -u origin HEAD` (line 138). -/
  | fetchHead
  deriving DecidableEq, Repr

/-- The all-zero object id written to invalidate `FETCH_HEAD` (lines 141-142). -/
def zeros40 : List Char := List.replicate 40 '0'

/-- The temporary symbolic HEAD target of line 98. -/
def tmpHeadRef : List Char := "refs/heads/non-existent-tmp-for-fetching".data

/-- Embedding of `_symlink_refs` (lines 77-92) at this granularity:
the `refs` symlink now points at `tgt`. -/
def symlink_refs (s : FetchState) (tgt : List Char) : FetchState :=
  { s with refsLink := some tgt }

/-- Value-level `set_ref` on `HEAD`. -/
def set_head (s : FetchState) (v : List Char) : FetchState :=
  { s with head := v }

/-- Embedding of `MirrorGitRepository.force_fetch` (lines 94-146).  Returns
the final state, the propagated `GitRepositoryError` if any, and the list of
git fetch commands that were run.  The `finally` block (restore `HEAD`, and
under the refs hack re-link `refs` to `refs.alt/fetch`) runs on both the
success and the failure path. -/
def force_fetch (env : FetchEnv) (s0 : FetchState) (refs_hack : Bool) :
    FetchState × Option GitErr × List GitCmd :=
  let origHead := s0.head
  let s1 := set_head s0 tmpHeadRef
  let s2 :=
    if refs_hack then
      { symlink_refs s1 "refs.alt".data with packedRefs := false }
    else
      match s1.refsLink with
      | some _ => { s1 with refsLink := none }
      | none => s1
  let refspec :=
    if refs_hack then "+refs/*:refs/fetch/*".data else "+refs/*:refs/*".data
  if env.primaryOk then
    let s3 := { s2 with fetchHead := env.primaryFetchHead }
    let s4 :=
      if env.headOk then { s3 with fetchHead := env.remoteHead }
      else { s3 with fetchHead := zeros40 }
    let s5 := set_head s4 origHead
    let s6 := if refs_hack then symlink_refs s5 "refs.alt/fetch".data else s5
    (s6, none, [GitCmd.fetchAll refspec, GitCmd.fetchHead])
  else
    let s5 := set_head s2 origHead
    let s6 := if refs_hack then symlink_refs s5 "refs.alt/fetch".data else s5
    (s6, some (GitErr.cmdFailed "fetch".data), [GitCmd.fetchAll refspec])

/-! ## `CachedRepo._init_git_repo`

Embeds lines 289-321 (with `MirrorGitRepository.clone`, lines 156-172).
The environment records whether the slot directory exists, the outcome of
opening it as a git repository (`some b` = opened with bare-ness `b`,
`none` = `GitRepositoryError`), whether `shutil.rmtree` succeeds, the
fetch outcomes, and whether a bare mirror clone succeeds.
-/

/-- The repository handle `_init_git_repo` leaves in `self._repo`. -/
structure Handle where
  /-- Bare-ness of the opened repository. -/
  bare : Bool
  deriving DecidableEq, Repr

/-- Observable actions of `_init_git_repo`, in order. -/
inductive SlotAct
  /-- `MirrorGitRepository(self._repodir)` was attempted (line 297). -/
  | openRepo
  /-- `shutil.rmtree(self._repodir)` was attempted (line 304). -/
  | rmtree
  /-- `force_fetch` on the existing repository was attempted (line 311). -/
  | fetch
  /-- `MirrorGitRepository.clone` was attempted (line 318). -/
  | clone
  deriving DecidableEq, Repr

/-- Outcomes of the external world for one `_init_git_repo` call. -/
structure SlotEnv where
  /-- Whether a directory exists at the slot path (line 295). -/
  slotExists : Bool
  /-- Opening the slot as a git repository: `some b` = success with
  bare-ness `b`; `none` = `GitRepositoryError` (lines 296-299). -/
  openResult : Option Bool
  /-- Whether `shutil.rmtree` of the slot succeeds (line 304). -/
  rmtreeOk : Bool
  /-- Fetch outcomes, used both to refresh an existing slot and by a
  non-bare clone. -/
  fetchEnv : FetchEnv
  /-- Ref-value state of the existing slot's git directory. -/
  fetchState : FetchState
  /-- Whether a bare mirror clone (`git clone --mirror`) succeeds (line 160). -/
  bareCloneOk : Bool

/-- Ref-value state of a repository freshly created by
`MirrorGitRepository.create` (line 165): symbolic `HEAD` on master, no
`FETCH_HEAD`, a real `refs` directory, no `packed-refs`. -/
def freshFetchState : FetchState :=
  { head := "refs/heads/master".data, fetchHead := [], refsLink := none,
    packedRefs := false }

/-- Embedding of `MirrorGitRepository.clone` (lines 156-172): a bare clone
delegates to a mirror clone; a non-bare clone creates a fresh repository,
registers the remote and runs `force_fetch`, so it fails exactly when the
primary fetch fails. -/
def clone_repo (env : SlotEnv) (bare refs_hack : Bool) : Except GitErr Handle :=
  if bare then
    if env.bareCloneOk then .ok ⟨true⟩ else .error (.cmdFailed "clone".data)
  else
    match (force_fetch env.fetchEnv freshFetchState refs_hack).2.1 with
    | none => .ok ⟨false⟩
    | some e => .error e

/-- The corrupted/mismatched-slot path of `_init_git_repo` (lines 300-307
and 315-321): remove the slot, then clone; an `OSError` of the removal is a
`CachedRepoError` (the spec's `DirError`).  Returns the result, the action
trace, and whether the slot directory was deleted. -/
def remove_and_clone (env : SlotEnv) (bare refs_hack : Bool) :
    Except CacheErr Handle × List SlotAct × Bool :=
  if env.rmtreeOk then
    match clone_repo env bare refs_hack with
    | .ok h => (.ok h, [SlotAct.openRepo, SlotAct.rmtree, SlotAct.clone], true)
    | .error e =>
      (.error (.cloneFailed e), [SlotAct.openRepo, SlotAct.rmtree, SlotAct.clone],
       true)
  else (.error .removeFailed, [SlotAct.openRepo, SlotAct.rmtree], false)

/-- Embedding of `CachedRepo._init_git_repo` (lines 289-321), after the lock
has been acquired.  Returns the result (the opened handle or the raised
`CachedRepoError`), the action trace, and whether the slot directory was
deleted. -/
def init_git_repo (env : SlotEnv) (bare refs_hack : Bool) :
    Except CacheErr Handle × List SlotAct × Bool :=
  if env.slotExists then
    match env.openResult with
    | some b =>
      if b = bare then
        match (force_fetch env.fetchEnv env.fetchState refs_hack).2.1 with
        | none => (.ok ⟨b⟩, [SlotAct.openRepo, SlotAct.fetch], false)
        | some e => (.error (.fetchFailed e), [SlotAct.openRepo, SlotAct.fetch],
                     false)
      else remove_and_clone env bare refs_hack
    | none => remove_and_clone env bare refs_hack
  else
    match clone_repo env bare refs_hack with
    | .ok h => (.ok h, [SlotAct.clone], false)
    | .error e => (.error (.cloneFailed e), [SlotAct.clone], false)

/-! ## The `CachedRepo` handle: close semantics and `update_working_copy`

Embeds lines 260-265, 323-351 (lock release, properties, `close`) and
lines 353-377 (`update_working_copy`).  A handle is its lock flag
(`self._lock is not None`), its repository (`self._repo`) and its slot path.
-/

/-- Working-tree view of the cached repository held by a handle. -/
structure WTRepo where
  /-- Bare-ness of the repository. -/
  bare : Bool
  /-- Value `get_ref('HEAD')` observes. -/
  head : List Char
  /-- Value `get_ref('FETCH_HEAD')` observes. -/
  fetchHead : List Char
  /-- Commit the working tree currently materializes. -/
  checkedOut : List Char
  /-- Untracked/ignored files `force_clean` would remove. -/
  untracked : List (List Char)
  /-- Whether submodules have been initialized and updated. -/
  submodulesUpdated : Bool
  deriving DecidableEq, Repr

/-- State of a `CachedRepo` handle. -/
structure CRState where
  /-- Whether the lock is held (`self._lock is not None`). -/
  lock : Bool
  /-- `self._repo`. -/
  repo : Option WTRepo
  /-- `self._repodir`. -/
  repodirPath : List Char
  deriving DecidableEq, Repr

/-- Outcomes of the external git tool for one `update_working_copy` call. -/
structure UWCEnv where
  /-- `git rev-parse <commitish>`: `some sha` on success, `none` on failure. -/
  revParse : List Char → Option (List Char)
  /-- Whether `git checkout --force <sha>` succeeds. -/
  checkoutOk : Bool

/-- Embedding of `CachedRepo._release_lock` (lines 260-265): unlock and
forget the lock if held, otherwise do nothing. -/
def release_lock (s : CRState) : CRState :=
  if s.lock then { s with lock := false } else s

/-- Embedding of `CachedRepo.close` (lines 344-351): release the lock and
clear the repository reference. -/
def close (s : CRState) : CRState :=
  { release_lock s with repo := none }

/-- Embedding of the `CachedRepo.repo` property (lines 332-336):
`_check_instance` then return `self._repo`. -/
def repo_prop (s : CRState) : Except CacheErr (Option WTRepo) :=
  if s.lock then .ok s.repo else .error .closedInstance

/-- Embedding of the `CachedRepo.repodir` property (lines 338-342). -/
def repodir_prop (s : CRState) : Except CacheErr (List Char) :=
  if s.lock then .ok s.repodirPath else .error .closedInstance

/-- Embedding of `CachedRepo.update_working_copy` (lines 353-377).  Order of
effects, exactly as in the source: `_check_instance`; bare check; `set_ref`
of `HEAD` to the `FETCH_HEAD` value; `force_clean`; `rev_parse` of the
commitish and `force_checkout` of the resulting sha inside one `try` whose
handler raises the `Unknown ref` `CachedRepoError`; `force_head(sha,
hard=True)`; optional recursive submodule update; return the sha.  (A locked
handle always has a repository through the public lifecycle; the
`lock = true`, `repo = none` branch below is unreachable from it.) -/
def update_working_copy (env : UWCEnv) (s : CRState) (commitish : List Char)
    (submodules : Bool) : CRState × Except CacheErr (List Char) :=
  if s.lock then
    match s.repo with
    | none => (s, .error .closedInstance)
    | some r =>
      if r.bare then (s, .error .updateBare)
      else
        let r2 := { r with head := r.fetchHead, untracked := [] }
        match env.revParse commitish with
        | none =>
          ({ s with repo := some r2 },
           .error (.unknownRef commitish (.cmdFailed "rev-parse".data)))
        | some sha =>
          if env.checkoutOk then
            let r4 := { r2 with checkedOut := sha, head := sha }
            let r5 :=
              if submodules then { r4 with submodulesUpdated := true } else r4
            ({ s with repo := some r5 }, .ok sha)
          else
            ({ s with repo := some r2 },
             .error (.unknownRef commitish (.cmdFailed "checkout".data)))
  else (s, .error .closedInstance)

end GbpRepocache

namespace GbpRepocache

/-! Helper lemmas about `rsplit1`. -/

theorem rsplit1_eq_none {sep : Char} {s : List Char} (h : sep ∉ s) :
    rsplit1 sep s = none := by
  induction s with
  | nil => rfl
  | cons c cs ih =>
    have hc : c ≠ sep := fun hc => h (hc ▸ List.mem_cons_self c cs)
    have hcs : sep ∉ cs := fun hm => h (List.mem_cons_of_mem c hm)
    simp [rsplit1, ih hcs, hc]

theorem rsplit1_append {sep : Char} (a : List Char) {b : List Char}
    (hb : sep ∉ b) : rsplit1 sep (a ++ sep :: b) = some (a, b) := by
  induction a with
  | nil => simp [rsplit1, rsplit1_eq_none hb]
  | cons c cs ih => simp [rsplit1, ih]

theorem mem_of_rsplit1_eq_some {sep : Char} {s a b : List Char}
    (h : rsplit1 sep s = some (a, b)) : s = a ++ sep :: b := by
  induction s generalizing a b with
  | nil => simp [rsplit1] at h
  | cons c cs ih =>
    unfold rsplit1 at h
    cases hcs : rsplit1 sep cs with
    | some p =>
      rw [hcs] at h
      cases p with
      | mk a0 b0 =>
        simp only [Option.some.injEq, Prod.mk.injEq] at h
        obtain ⟨rfl, rfl⟩ := h
        simp [ih hcs]
    | none =>
      rw [hcs] at h
      by_cases hc : c = sep
      · simp only [hc, if_pos rfl, Option.some.injEq, Prod.mk.injEq] at h
        obtain ⟨rfl, rfl⟩ := h
        simp [hc]
      · simp [hc] at h

theorem rstripSlash_eq_self {l : List Char} {c : Char} (h : l.getLast? = some c)
    (hc : c ≠ '/') : rstripSlash l = l := by
  rw [rstripSlash, List.rdropWhile_eq_self_iff]
  intro hl hp
  rw [List.getLast?_eq_getLast l hl, Option.some.injEq] at h
  simp only [decide_eq_true_eq] at hp
  exact hc (h ▸ hp)

theorem ospJoin_no_sep {a b : List Char} (ha : a ≠ [])
    (hal : a.getLast? ≠ some '/') (hbh : b.head? ≠ some '/') :
    ospJoin a b = a ++ '/' :: b := by
  rw [ospJoin, if_neg hbh, if_neg]
  rw [not_or]
  exact ⟨ha, hal⟩

/-- Claim C3: the mapping from (cache root, URL) to the slot path is the pure
function `basedir/<sha1-hex of base>/<name>`, where the URL is first stripped
of trailing slashes and then split at the last `'/'` (or, when it contains no
`'/'`, at the last `':'`) into base and name, a URL without any separator
having the empty base and itself as name; the mapping is deterministic (a
pure function of its arguments, with no filesystem access in the model). -/
theorem repodir_resolver_characterization
    (sha1hex : List Char → List Char) (basedir url base name : List Char) :
    (repodir sha1hex basedir url =
        ospJoin (ospJoin basedir (sha1hex (split_url url).1)) (split_url url).2)
  ∧ (rstripSlash url = base ++ '/' :: name → '/' ∉ name →
        split_url url = (base, name))
  ∧ ('/' ∉ rstripSlash url → rstripSlash url = base ++ ':' :: name →
        ':' ∉ name → split_url url = (base, name))
  ∧ ('/' ∉ rstripSlash url → ':' ∉ rstripSlash url →
        split_url url = ([], rstripSlash url))
  ∧ (basedir ≠ [] → basedir.getLast? ≠ some '/' →
        sha1hex (split_url url).1 ≠ [] →
        (sha1hex (split_url url).1).head? ≠ some '/' →
        (sha1hex (split_url url).1).getLast? ≠ some '/' →
        ((split_url url).2).head? ≠ some '/' →
        repodir sha1hex basedir url =
          basedir ++ '/' :: (sha1hex (split_url url).1 ++ '/' :: (split_url url).2))
  ∧ repodir sha1hex basedir url = repodir sha1hex basedir url := by
  refine ⟨rfl, ?_, ?_, ?_, ?_, rfl⟩
  · intro h hn
    rw [split_url, h, rsplit1_append base hn]
  · intro h0 h hn
    rw [split_url, rsplit1_eq_none (h ▸ h0), h, rsplit1_append base hn]
  · intro h0 h1
    rw [split_url, rsplit1_eq_none h0, rsplit1_eq_none h1]
  · intro hb hbl hh hhh hhl hnh
    have e1 : ospJoin basedir (sha1hex (split_url url).1) =
        basedir ++ '/' :: sha1hex (split_url url).1 := ospJoin_no_sep hb hbl hhh
    have e2 : (basedir ++ '/' :: sha1hex (split_url url).1).getLast? =
        (sha1hex (split_url url).1).getLast? := by
      rw [← List.singleton_append, ← List.append_assoc]
      exact List.getLast?_append_of_ne_nil _ hh
    rw [repodir, e1, ospJoin_no_sep (by simp) (e2 ▸ hhl) hnh, List.append_assoc,
      List.cons_append]

/-- Witness for C3 at a concrete input: the doctest URL of `_split_url`. -/
theorem repodir_resolver_characterization_witness :
    split_url "http://foo.com/bar".data = ("http://foo.com".data, "bar".data)
  ∧ repodir (fun _ => "da39".data) "/cache".data "http://foo.com/bar".data =
      "/cache".data ++ '/' :: ("da39".data ++ '/' :: "bar".data) := by
  have h := repodir_resolver_characterization (fun _ => "da39".data)
      "/cache".data "http://foo.com/bar".data "http://foo.com".data "bar".data
  refine ⟨h.2.1 (by decide) (by decide), ?_⟩
  have hs : split_url "http://foo.com/bar".data =
      ("http://foo.com".data, "bar".data) := h.2.1 (by decide) (by decide)
  have := h.2.2.2.2.1 (by decide) (by decide)
  rw [hs] at this
  exact this (by decide) (by decide) (by decide) (by decide)

/-- Claim C10: for a URL that contains no `'/'` and ends with `':'`, the
splitting function returns an empty repository name, the resolved slot path
degenerates to `os.path.join` of the hash directory with the empty string
(the hash directory path plus a trailing slash, not a subdirectory), and the
lock file path lies inside that hash directory. -/
theorem split_url_colon_empty_name
    (sha1hex : List Char → List Char) (basedir url : List Char)
    (hslash : '/' ∉ url) (hcolon : url.getLast? = some ':') :
    (split_url url).2 = []
  ∧ repodir sha1hex basedir url =
      ospJoin (ospJoin basedir (sha1hex (split_url url).1)) []
  ∧ (ospJoin basedir (sha1hex (split_url url).1) ≠ [] →
      (ospJoin basedir (sha1hex (split_url url).1)).getLast? ≠ some '/' →
        repodir sha1hex basedir url =
          ospJoin basedir (sha1hex (split_url url).1) ++ ['/']
      ∧ lockPath sha1hex basedir url =
          ospJoin basedir (sha1hex (split_url url).1) ++ "/.lock".data) := by
  obtain ⟨a, rfl⟩ := List.getLast?_eq_some_iff.mp hcolon
  have hstrip : rstripSlash (a ++ [':']) = a ++ [':'] :=
    rstripSlash_eq_self hcolon (by decide)
  have hsplit : split_url (a ++ [':']) = (a, []) := by
    rw [split_url, hstrip, rsplit1_eq_none hslash, rsplit1_append a (by simp)]
  have h2 : (split_url (a ++ [':'])).2 = [] := by rw [hsplit]
  refine ⟨h2, by rw [repodir, h2], ?_⟩
  intro hne hlast
  have hrepodir : repodir sha1hex basedir (a ++ [':']) =
      ospJoin basedir (sha1hex (split_url (a ++ [':'])).1) ++ ['/'] := by
    rw [repodir, h2, ospJoin, if_neg (by simp), if_neg]
    rw [not_or]
    exact ⟨hne, hlast⟩
  refine ⟨hrepodir, ?_⟩
  rw [lockPath, hrepodir, List.append_assoc]
  rfl

/-- Witness for C10 at the concrete URL `foo.com:`. -/
theorem split_url_colon_empty_name_witness :
    (split_url "foo.com:".data).2 = []
  ∧ repodir (fun _ => "0a".data) "/cache".data "foo.com:".data =
      "/cache/0a/".data
  ∧ lockPath (fun _ => "0a".data) "/cache".data "foo.com:".data =
      "/cache/0a/.lock".data := by
  have h := split_url_colon_empty_name (fun _ => "0a".data) "/cache".data
      "foo.com:".data (by decide) (by decide)
  have h3 := h.2.2 (by decide) (by decide)
  exact ⟨h.1, by rw [h3.1]; decide, by rw [h3.2]; decide⟩

theorem lookupAssoc_setAssoc (l : List (List Char × List Char))
    (k v : List Char) : lookupAssoc (setAssoc l k v) k = some v := by
  simp [lookupAssoc, setAssoc]

/-- Claim C8: `set_ref` writes a symbolic ref through the git tool exactly
when the value starts with `refs/`; any other value is written raw, followed
by a newline, directly into the ref file on disk (bypassing git's validation,
so the ref can be set to a non-existent object id), and a failure of that
direct write raises a `GitRepositoryError` (the spec's `RefError`). -/
theorem set_ref_write_semantics (env : RefEnv) (s : GitDirFiles)
    (ref value : List Char) :
    ("refs/".data.isPrefixOf value = true →
        (env.symbolicRefOk = true →
          set_ref env s ref value =
            .ok { s with symref := setAssoc s.symref ref value })
      ∧ (env.symbolicRefOk = false →
          set_ref env s ref value = .error (.symbolicRefFailed ref)))
  ∧ ("refs/".data.isPrefixOf value = false →
        (env.writeOk ref = true →
          set_ref env s ref value =
            .ok { s with files := setAssoc s.files ref (value ++ ['\n']) }
        ∧ ∃ s', set_ref env s ref value = .ok s'
            ∧ lookupAssoc s'.files ref = some (value ++ ['\n'])
            ∧ s'.symref = s.symref)
      ∧ (env.writeOk ref = false →
          set_ref env s ref value = .error (.writeRefFailed ref))) := by
  cases hv : "refs/".data.isPrefixOf value <;>
    cases hs : env.symbolicRefOk <;> cases hw : env.writeOk ref <;>
    simp [set_ref, hv, hs, hw, lookupAssoc_setAssoc]

/-- Witness for C8: setting `HEAD` to the (non-existent) all-zero object id
succeeds as a raw file write when the write is possible, and fails with the
ref-write error when it is not. -/
theorem set_ref_write_semantics_witness :
    set_ref ⟨true, fun _ => true⟩ ⟨[], []⟩ "HEAD".data zeros40 =
      .ok ⟨[], [("HEAD".data, zeros40 ++ ['\n'])]⟩
  ∧ set_ref ⟨true, fun _ => false⟩ ⟨[], []⟩ "HEAD".data zeros40 =
      .error (.writeRefFailed "HEAD".data) := by
  have h1 := set_ref_write_semantics ⟨true, fun _ => true⟩ ⟨[], []⟩
      "HEAD".data zeros40
  have h2 := set_ref_write_semantics ⟨true, fun _ => false⟩ ⟨[], []⟩
      "HEAD".data zeros40
  exact ⟨by rw [((h1.2 (by decide)).1 rfl).1]; rfl, (h2.2 (by decide)).2 rfl⟩

/-- Claim C4: whenever the primary fetch of `force_fetch` completes, the
separate fetch of the remote's HEAD alone is always additionally run; if that
HEAD fetch fails, the all-zero object id is written into `FETCH_HEAD` and no
error propagates from that step, whereas a failure of the primary fetch
itself propagates as a `GitRepositoryError` (the spec's `FetchError`) and the
HEAD fetch is not reached. -/
theorem force_fetch_head_fetch_semantics (env : FetchEnv) (s : FetchState)
    (refs_hack : Bool) :
    (env.primaryOk = true →
        (force_fetch env s refs_hack).2.2 =
          [GitCmd.fetchAll (if refs_hack then "+refs/*:refs/fetch/*".data
                            else "+refs/*:refs/*".data), GitCmd.fetchHead]
      ∧ (force_fetch env s refs_hack).2.1 = none
      ∧ (env.headOk = false →
          (force_fetch env s refs_hack).1.fetchHead = zeros40)
      ∧ (env.headOk = true →
          (force_fetch env s refs_hack).1.fetchHead = env.remoteHead))
  ∧ (env.primaryOk = false →
        (force_fetch env s refs_hack).2.1 =
          some (GitErr.cmdFailed "fetch".data)
      ∧ GitCmd.fetchHead ∉ (force_fetch env s refs_hack).2.2) := by
  cases hp : env.primaryOk <;> cases hh : env.headOk <;> cases refs_hack <;>
    cases hrl : s.refsLink <;>
    simp [force_fetch, set_head, symlink_refs, hp, hh, hrl]

/-- Witness for C4: a concrete run whose primary fetch succeeds but whose
HEAD fetch fails invalidates `FETCH_HEAD`, and a concrete run whose primary
fetch fails propagates the fetch error without running the HEAD fetch. -/
theorem force_fetch_head_fetch_semantics_witness :
    (force_fetch ⟨true, "f1".data, false, "rh".data⟩ freshFetchState
        false).2.2 =
      [GitCmd.fetchAll "+refs/*:refs/*".data, GitCmd.fetchHead]
  ∧ (force_fetch ⟨true, "f1".data, false, "rh".data⟩ freshFetchState
        false).1.fetchHead = zeros40
  ∧ (force_fetch ⟨true, "f1".data, false, "rh".data⟩ freshFetchState
        false).2.1 = none
  ∧ (force_fetch ⟨false, "f1".data, false, "rh".data⟩ freshFetchState
        false).2.1 = some (GitErr.cmdFailed "fetch".data) := by
  have h1 := force_fetch_head_fetch_semantics
      ⟨true, "f1".data, false, "rh".data⟩ freshFetchState false
  have h2 := force_fetch_head_fetch_semantics
      ⟨false, "f1".data, false, "rh".data⟩ freshFetchState false
  exact ⟨by simpa using (h1.1 rfl).1, (h1.1 rfl).2.2.1 rfl, (h1.1 rfl).2.1,
    (h2.2 rfl).1⟩

/-- Claim C5: every call to `force_fetch`, whether the fetch steps succeed
or fail, restores the local HEAD ref to its entry value before returning or
propagating the error; and when the refs hack was used, the refs symlink
points at the `refs.alt/fetch` alternate namespace on exit. -/
theorem force_fetch_restores_head (env : FetchEnv) (s : FetchState)
    (refs_hack : Bool) :
    (force_fetch env s refs_hack).1.head = s.head
  ∧ (refs_hack = true →
      (force_fetch env s refs_hack).1.refsLink =
        some "refs.alt/fetch".data) := by
  cases hp : env.primaryOk <;> cases hh : env.headOk <;> cases refs_hack <;>
    cases hrl : s.refsLink <;>
    simp [force_fetch, set_head, symlink_refs, hp, hh, hrl]

/-- Witness for C5: a concrete refs-hack run with a failing primary fetch
still restores HEAD and re-links `refs` to the alternate namespace. -/
theorem force_fetch_restores_head_witness :
    (force_fetch ⟨false, [], true, []⟩ freshFetchState true).1.head =
      freshFetchState.head
  ∧ (force_fetch ⟨false, [], true, []⟩ freshFetchState true).1.refsLink =
      some "refs.alt/fetch".data := by
  have h := force_fetch_restores_head ⟨false, [], true, []⟩ freshFetchState true
  exact ⟨h.1, h.2 rfl⟩

theorem force_fetch_err_of_primary_fail (env : FetchEnv) (s : FetchState)
    (refs_hack : Bool) (h : env.primaryOk = false) :
    (force_fetch env s refs_hack).2.1 =
      some (GitErr.cmdFailed "fetch".data) := by
  cases refs_hack <;> cases hrl : s.refsLink <;>
    simp [force_fetch, set_head, symlink_refs, h, hrl]

theorem init_git_repo_absent (env : SlotEnv) (bare refs_hack : Bool)
    (hex : env.slotExists = false) :
    init_git_repo env bare refs_hack =
      match clone_repo env bare refs_hack with
      | .ok hd => (.ok hd, [SlotAct.clone], false)
      | .error e => (.error (.cloneFailed e), [SlotAct.clone], false) := by
  simp [init_git_repo, hex]

theorem clone_repo_bare {env : SlotEnv} {bare refs_hack : Bool} {h : Handle}
    (hc : clone_repo env bare refs_hack = .ok h) : h.bare = bare := by
  unfold clone_repo at hc
  cases bare
  · cases hf : (force_fetch env.fetchEnv freshFetchState refs_hack).2.1 <;>
      simp [hf] at hc
    rw [← hc]
  · cases hb : env.bareCloneOk <;> simp [hb] at hc
    rw [← hc]

/-- Claim C1: when the slot directory exists but either fails to open as a
git repository or has a bare-ness different from the requested mode, the
whole slot directory is deleted and a fresh clone is performed, so the call
behaves exactly like an open of an absent slot and any handle it returns has
the requested bare-ness; a failure of the deletion itself makes the open
fail with the `Failed to remove repo cache dir` `CachedRepoError` (the
spec's `DirError`), and the recovery surfaces no other error. -/
theorem init_git_repo_corrupt_slot_recovery (env : SlotEnv)
    (bare refs_hack : Bool) (hex : env.slotExists = true)
    (hbad : env.openResult = none ∨ env.openResult = some (!bare)) :
    (env.rmtreeOk = false →
        (init_git_repo env bare refs_hack).1 = .error .removeFailed
      ∧ (init_git_repo env bare refs_hack).2.2 = false)
  ∧ (env.rmtreeOk = true →
        (init_git_repo env bare refs_hack).2.2 = true
      ∧ SlotAct.rmtree ∈ (init_git_repo env bare refs_hack).2.1
      ∧ SlotAct.clone ∈ (init_git_repo env bare refs_hack).2.1
      ∧ (init_git_repo env bare refs_hack).1 =
          (init_git_repo { env with slotExists := false } bare refs_hack).1
      ∧ ∀ hd, (init_git_repo env bare refs_hack).1 = .ok hd →
          hd.bare = bare) := by
  have hmain : init_git_repo env bare refs_hack =
      remove_and_clone env bare refs_hack := by
    rcases hbad with hb | hb <;> simp [init_git_repo, hex, hb]
  have hcl : clone_repo { env with slotExists := false } bare refs_hack =
      clone_repo env bare refs_hack := rfl
  rw [hmain]
  constructor
  · intro hrm
    simp [remove_and_clone, hrm]
  · intro hrm
    have hfr := init_git_repo_absent { env with slotExists := false }
        bare refs_hack rfl
    rw [hcl] at hfr
    cases hc : clone_repo env bare refs_hack with
    | ok hd =>
      rw [hc] at hfr
      refine ⟨by simp [remove_and_clone, hrm, hc],
        by simp [remove_and_clone, hrm, hc],
        by simp [remove_and_clone, hrm, hc],
        by rw [hfr]; simp [remove_and_clone, hrm, hc], ?_⟩
      intro hd2 hok
      simp [remove_and_clone, hrm, hc] at hok
      subst hok
      exact clone_repo_bare hc
    | error e =>
      rw [hc] at hfr
      refine ⟨by simp [remove_and_clone, hrm, hc],
        by simp [remove_and_clone, hrm, hc],
        by simp [remove_and_clone, hrm, hc],
        by rw [hfr]; simp [remove_and_clone, hrm, hc], ?_⟩
      intro hd2 hok
      simp [remove_and_clone, hrm, hc] at hok

/-- Witness for C1: a slot that fails to open is removed and freshly cloned
(the resulting handle is non-bare as requested), and a slot whose bare-ness
mismatches while the removal fails surfaces the directory-removal error. -/
theorem init_git_repo_corrupt_slot_recovery_witness :
    (init_git_repo ⟨true, none, true, ⟨true, [], true, []⟩, freshFetchState,
        true⟩ false false).1 = .ok ⟨false⟩
  ∧ (init_git_repo ⟨true, some true, false, ⟨true, [], true, []⟩,
        freshFetchState, true⟩ false false).1 = .error .removeFailed := by
  have h1 := init_git_repo_corrupt_slot_recovery
      ⟨true, none, true, ⟨true, [], true, []⟩, freshFetchState, true⟩
      false false rfl (Or.inl rfl)
  have h2 := init_git_repo_corrupt_slot_recovery
      ⟨true, some true, false, ⟨true, [], true, []⟩, freshFetchState, true⟩
      false false rfl (Or.inr rfl)
  exact ⟨((h1.2 rfl).2.2.2.1).trans (by rfl), (h2.1 rfl).1⟩

/-- Claim C6: when the slot exists, opens successfully and its bare-ness
matches the requested mode, but the refreshing fetch fails, the open fails
with the `Failed to fetch from remote` `CachedRepoError` (the spec's
`FetchError`) and the slot directory is left as-is: it is not deleted and no
re-clone is attempted. -/
theorem init_git_repo_fetch_failure_preserves_slot (env : SlotEnv)
    (bare refs_hack : Bool) (hex : env.slotExists = true)
    (hopen : env.openResult = some bare)
    (hfetch : env.fetchEnv.primaryOk = false) :
    (init_git_repo env bare refs_hack).1 =
      .error (.fetchFailed (.cmdFailed "fetch".data))
  ∧ (init_git_repo env bare refs_hack).2.2 = false
  ∧ SlotAct.rmtree ∉ (init_git_repo env bare refs_hack).2.1
  ∧ SlotAct.clone ∉ (init_git_repo env bare refs_hack).2.1 := by
  have herr := force_fetch_err_of_primary_fail env.fetchEnv env.fetchState
      refs_hack hfetch
  simp [init_git_repo, hex, hopen, herr]

/-- Witness for C6: a concrete matching slot with a failing fetch. -/
theorem init_git_repo_fetch_failure_preserves_slot_witness :
    (init_git_repo ⟨true, some false, true, ⟨false, [], true, []⟩,
        freshFetchState, true⟩ false false).1 =
      .error (.fetchFailed (.cmdFailed "fetch".data))
  ∧ (init_git_repo ⟨true, some false, true, ⟨false, [], true, []⟩,
        freshFetchState, true⟩ false false).2.2 = false := by
  have h := init_git_repo_fetch_failure_preserves_slot
      ⟨true, some false, true, ⟨false, [], true, []⟩, freshFetchState, true⟩
      false false rfl rfl rfl
  exact ⟨h.1, h.2.1⟩

/-- Claim C7: after `close` every operation on the handle (the `repo`
property, the `repodir` property, `update_working_copy`) fails with the
closed-instance `CachedRepoError` (the spec's `ClosedHandleError`), and
closing is idempotent: `close` on an already-closed handle and the
underlying lock release on a never-locked handle are no-ops, not errors. -/
theorem closed_handle_semantics (env : UWCEnv) (s : CRState)
    (commitish : List Char) (submodules : Bool) :
    repo_prop (close s) = .error .closedInstance
  ∧ repodir_prop (close s) = .error .closedInstance
  ∧ (update_working_copy env (close s) commitish submodules).2 =
      .error .closedInstance
  ∧ (update_working_copy env (close s) commitish submodules).1 = close s
  ∧ close (close s) = close s
  ∧ release_lock { s with lock := false } = { s with lock := false } := by
  cases hs : s.lock <;>
    simp [close, release_lock, repo_prop, repodir_prop, update_working_copy, hs]

/-- Claim C9: `update_working_copy` on an open bare handle always fails with
the `Cannot update working copy of a bare repo` `CachedRepoError` (the
spec's `OperationError`) without mutating the handle's state; on an open
non-bare handle whose commitish resolves (the checkout of the resolved sha
succeeding) it returns exactly the commit id the commitish resolves to. -/
theorem update_working_copy_bare_and_resolution (env : UWCEnv) (s : CRState)
    (r : WTRepo) (commitish : List Char) (submodules : Bool)
    (hlock : s.lock = true) (hrepo : s.repo = some r) :
    (r.bare = true →
        (update_working_copy env s commitish submodules).2 =
          .error .updateBare
      ∧ (update_working_copy env s commitish submodules).1 = s)
  ∧ (r.bare = false → ∀ sha, env.revParse commitish = some sha →
        env.checkoutOk = true →
        (update_working_copy env s commitish submodules).2 = .ok sha) := by
  constructor
  · intro hb
    simp [update_working_copy, hlock, hrepo, hb]
  · intro hb sha hsha hco
    cases submodules <;>
      simp [update_working_copy, hlock, hrepo, hb, hsha, hco]

/-- Witness for C9: a concrete bare handle is rejected, and a concrete
non-bare handle returns the resolved sha. -/
theorem update_working_copy_bare_and_resolution_witness :
    (update_working_copy ⟨fun _ => some "abc".data, true⟩
        ⟨true, some ⟨true, [], [], [], [], false⟩, []⟩ "HEAD".data true).2 =
      .error .updateBare
  ∧ (update_working_copy ⟨fun _ => some "abc".data, true⟩
        ⟨true, some ⟨false, [], [], [], [], false⟩, []⟩ "HEAD".data true).2 =
      .ok "abc".data := by
  have h1 := update_working_copy_bare_and_resolution
      ⟨fun _ => some "abc".data, true⟩
      ⟨true, some ⟨true, [], [], [], [], false⟩, []⟩
      ⟨true, [], [], [], [], false⟩ "HEAD".data true rfl rfl
  have h2 := update_working_copy_bare_and_resolution
      ⟨fun _ => some "abc".data, true⟩
      ⟨true, some ⟨false, [], [], [], [], false⟩, []⟩
      ⟨false, [], [], [], [], false⟩ "HEAD".data true rfl rfl
  exact ⟨(h1.1 rfl).1, h2.2 rfl "abc".data rfl rfl⟩

/-- Counterexample to claim C2 as stated: on a concrete open non-bare handle
whose revision does not resolve, `update_working_copy` does fail with the
unknown-revision error naming the commitish, but a mutation of the
repository's HEAD is visible after the failed call: HEAD was repointed from
`refs/heads/master` to the FETCH_HEAD value `1234` (and the untracked file
was cleaned) before resolution was attempted, so the prior state is not left
unchanged. -/
theorem update_working_copy_mutation_cex :
    (update_working_copy ⟨fun _ => none, true⟩
        ⟨true, some ⟨false, "refs/heads/master".data, "1234".data, "c0".data,
          ["junk".data], false⟩, []⟩ "no/such/ref".data true).2 =
      .error (.unknownRef "no/such/ref".data (.cmdFailed "rev-parse".data))
  ∧ (update_working_copy ⟨fun _ => none, true⟩
        ⟨true, some ⟨false, "refs/heads/master".data, "1234".data, "c0".data,
          ["junk".data], false⟩, []⟩ "no/such/ref".data true).1.repo =
      some ⟨false, "1234".data, "1234".data, "c0".data, [], false⟩
  ∧ ("1234".data : List Char) ≠ "refs/heads/master".data := by
  exact ⟨rfl, rfl, by decide⟩

/-- Claim C2 (amended): on every open non-bare handle, a revision string
that does not resolve makes `update_working_copy` fail with the
unknown-revision `CachedRepoError` naming the requested commitish, and no
checkout or reset of the working tree is performed (the checked-out commit
is unchanged); however, the call first repoints HEAD at the FETCH_HEAD value
and force-cleans untracked files, and that mutation is visible after the
failed call. -/
theorem update_working_copy_unknown_rev_amended (env : UWCEnv) (s : CRState)
    (r : WTRepo) (commitish : List Char) (submodules : Bool)
    (hlock : s.lock = true) (hrepo : s.repo = some r) (hbare : r.bare = false)
    (hres : env.revParse commitish = none) :
    (update_working_copy env s commitish submodules).2 =
      .error (.unknownRef commitish (.cmdFailed "rev-parse".data))
  ∧ (update_working_copy env s commitish submodules).1 =
      { s with repo := some { r with head := r.fetchHead, untracked := [] } } := by
  simp [update_working_copy, hlock, hrepo, hbare, hres]

/-- Witness for the amended C2 at a concrete handle and revision. -/
theorem update_working_copy_unknown_rev_amended_witness :
    (update_working_copy ⟨fun _ => none, true⟩
        ⟨true, some ⟨false, "refs/heads/master".data, "ff00".data, "c0".data,
          [], false⟩, "/cache/x/repo".data⟩ "no/such/ref".data false).2 =
      .error (.unknownRef "no/such/ref".data (.cmdFailed "rev-parse".data))
  ∧ (update_working_copy ⟨fun _ => none, true⟩
        ⟨true, some ⟨false, "refs/heads/master".data, "ff00".data, "c0".data,
          [], false⟩, "/cache/x/repo".data⟩ "no/such/ref".data false).1 =
      ⟨true, some ⟨false, "ff00".data, "ff00".data, "c0".data, [], false⟩,
        "/cache/x/repo".data⟩ := by
  have h := update_working_copy_unknown_rev_amended ⟨fun _ => none, true⟩
      ⟨true, some ⟨false, "refs/heads/master".data, "ff00".data, "c0".data,
        [], false⟩, "/cache/x/repo".data⟩
      ⟨false, "refs/heads/master".data, "ff00".data, "c0".data, [], false⟩
      "no/such/ref".data false rfl rfl rfl rfl
  exact ⟨h.1, h.2.trans rfl⟩

end GbpRepocache
